import Mathlib

/-!
Verification development for the `mrlm-net/tracer` repository.

The Go sources are shallowly embedded as pure Lean functions:

* external network effects (DNS lookups, dial attempts, socket reads, the
  HTTP client's round trips) are supplied by explicit environment records,
  so each tracer entry point becomes a deterministic function from its
  environment and configuration to the list of emitted events, the returned
  error and a log of the dial attempts it performed;
* `net.ParseIP` and `net.SplitHostPort` from the Go standard library are
  taken as abstract function parameters, since the repository's code only
  branches on their results;
* Go's nondeterministically generated identifiers (`uuid.NewString`) are
  passed in as plain string parameters;
* wall-clock instants are modelled as integers where a claim depends on
  them (the stage correlator); event timestamps and measured durations that
  no claim inspects are left out of the event model, as are the free-form
  payload entries (addresses, byte counts, error text) — except the captured
  header maps, which claims do inspect.
-/

namespace Tracer

/-! ## Event model (pkg/event/event.go) -/

/-- Header maps (`http.Header` / the `map[string][]string` copies made by
`copyHeaders`) are modelled as association lists from header name to the
list of values. -/
abbrev Headers := List (String × List String)

/-- Normalized trace event (`event.Event`).  `payload` fields other than the
captured `headers` map are not inspected by any claim and are elided. -/
structure Event where
  protocol : String
  eventType : String
  stage : String
  traceID : String
  connID : String
  durationNS : Int
  tags : List (String × String)
  headers : Headers
deriving DecidableEq, Repr

/-- Lifecycle event with no connection id, duration, tags or headers. -/
def lifeEv (proto stage tid : String) : Event :=
  ⟨proto, "lifecycle", stage, tid, "", 0, [], []⟩

/-- Lifecycle event carrying a connection id, a duration and tags
(`tracecommon.EmitLifecycle`). -/
def lifeEvC (proto stage tid cid : String) (dur : Int) (tags : List (String × String)) : Event :=
  ⟨proto, "lifecycle", stage, tid, cid, dur, tags, []⟩

/-- Lifecycle event carrying a captured header map (the `request_send` and
`response_headers` events of the HTTP tracing transport). -/
def lifeEvH (proto stage tid : String) (hdrs : Headers) : Event :=
  ⟨proto, "lifecycle", stage, tid, "", 0, [], hdrs⟩

/-- Lifecycle event carrying only a duration (the stage correlator's
`emitStageDone` emission). -/
def lifeEvD (proto stage tid : String) (dur : Int) : Event :=
  ⟨proto, "lifecycle", stage, tid, "", dur, [], []⟩

/-- Error event (`EventType: "error"`). -/
def errEv (proto stage tid : String) : Event :=
  ⟨proto, "error", stage, tid, "", 0, [], []⟩

/-- Whether an event has `event_type = "error"`. -/
def Event.isError (e : Event) : Bool := e.eventType == "error"

/-- Whether an event is terminal in the sense of the spec's terminal
guarantee: an error event or the `request_end` lifecycle stage. -/
def Event.isTerminal (e : Event) : Bool := e.isError || e.stage == "request_end"

/-- Number of `event_type = "error"` events in a sequence. -/
def errorCount : List Event → Nat
  | [] => 0
  | e :: l => (if e.isError then 1 else 0) + errorCount l

/-- Number of terminal events (error events plus `request_end` events). -/
def terminalCount : List Event → Nat
  | [] => 0
  | e :: l => (if e.isTerminal then 1 else 0) + terminalCount l

/-- Stage names of an event sequence, in emission order. -/
def stages (evs : List Event) : List String := evs.map Event.stage

/-! ## Strings and IP addresses -/

/-- ASCII lower-casing of one character: the behavior of `strings.ToLower`
on the ASCII inputs the code compares against. -/
def asciiLowerChar (c : Char) : Char :=
  if 'A' ≤ c ∧ c ≤ 'Z' then Char.ofNat (c.toNat + 32) else c

/-- ASCII lower-casing of a string (`strings.ToLower` restricted to ASCII,
which covers every comparison the repository performs on the result). -/
def asciiLower (s : String) : String := String.mk (s.toList.map asciiLowerChar)

/-- IP address family. -/
inductive Family where
  | v4
  | v6
deriving DecidableEq, Repr

/-- A parsed IP address (`net.IP`): its family — the abstraction of Go's
`ip.To4() != nil` test — and its textual form `ip.String()`. -/
structure IP where
  family : Family
  str : String
deriving DecidableEq, Repr

/-- `netutil.IsIPv4` on a non-nil IP. -/
def isIPv4 (ip : IP) : Bool := ip.family == Family.v4

/-- `net.JoinHostPort`: brackets the host when it contains a colon. -/
def joinHostPort (host port : String) : String :=
  if host.contains ':' then "[" ++ host ++ "]:" ++ port else host ++ ":" ++ port

/-! ## ParseAddr (pkg/netutil/addr.go) -/

/-- Result record of `netutil.ParseAddr`. -/
structure ParseAddrResult where
  host : String
  port : String
  joinAddr : String
  ip : Option IP
  isIP : Bool
  zone : String
  err : Option String
deriving Repr

/-- Bracket removal step of `ParseAddr`: when the host both starts with
`[` and ends with `]`, remove that one leading and trailing bracket
(`[::1]` → `::1`). -/
def trimBrackets (h : String) : String :=
  let cs := h.toList
  if cs.head? = some '[' ∧ cs.getLast? = some ']' then
    String.mk ((cs.drop 1).dropLast)
  else h

/-- Zone-detection step of `ParseAddr`: split at the last `%`, returning
`(host, zone)`; the zone is empty when no `%` occurs. -/
def splitZone (host : String) : String × String :=
  let cs := host.toList
  match cs.reverse.indexOf? '%' with
  | none => (host, "")
  | some r =>
      let i := cs.length - 1 - r
      (String.mk (cs.take i), String.mk (cs.drop (i + 1)))

/-- Shallow embedding of `netutil.ParseAddr`.  `shp` is the behavior of
`net.SplitHostPort` (`none` models a split error, which the code swallows)
and `pip` the behavior of `net.ParseIP`.  Every path of the Go function
ends in `return host, port, joinAddr, ip, isIP, zone, nil`, so the
embedded error component is `none` by construction. -/
def ParseAddr (shp : String → Option (String × String)) (pip : String → Option IP)
    (input defaultPort : String) : ParseAddrResult :=
  let hp := match shp input with
    | some x => x
    | none => (input, defaultPort)
  let hz := splitZone (trimBrackets hp.1)
  let ip := pip hz.1
  let joinHost := if hz.2 ≠ "" then hz.1 ++ "%" ++ hz.2 else hz.1
  { host := hz.1, port := hp.2, joinAddr := joinHostPort joinHost hp.2,
    ip := ip, isIP := ip.isSome, zone := hz.2, err := none }

/-! ## ResolveAndDial (pkg/netutil/addr.go) -/

/-- One dial attempt as performed by the code: the network string passed to
`DialContext` (e.g. `"tcp4"`), the address, and the timeout installed on
the dialer (and, in the candidate loop, on the per-attempt context). -/
structure DialAttempt where
  network : String
  addr : String
  timeoutNS : Int
deriving DecidableEq, Repr

/-- Environment supplying the network effects of `ResolveAndDial`:
`lookup` is the outcome of `net.DefaultResolver.LookupIP` for the traced
host, and `dialErr network addr` is the outcome of a dial attempt
(`none` = connection established, `some e` = error `e`). -/
structure NetEnv where
  lookup : Except String (List IP)
  dialErr : String → String → Option String

/-- Family-specific network string: `networkBase+"4"` or `networkBase+"6"`. -/
def netFor (base : String) (ip : IP) : String :=
  if isIPv4 ip then base ++ "4" else base ++ "6"

/-- Chosen family string: `"v4"` or `"v6"`. -/
def famFor (ip : IP) : String := if isIPv4 ip then "v4" else "v6"

/-- Five seconds in nanoseconds — the per-attempt ceiling of the dial loop. -/
def fiveSecondsNS : Int := 5000000000

/-- Per-attempt timeout as the code computes it: start from the 5-second
ceiling and lower it to the caller's timeout only when that is positive and
smaller. -/
def perAttemptNS (timeout : Int) : Int :=
  if 0 < timeout ∧ timeout < fiveSecondsNS then timeout else fiveSecondsNS

/-- Candidate try order of the dial loop: partition the resolved list into
IPv4 and IPv6 subsets (each in resolver order) and order them by the
lower-cased preference; anything other than `"v4"`/`"v6"` keeps the
resolver's returned order. -/
def tryOrder (resolved : List IP) (pref : String) : List IP :=
  if pref == "v6" then
    resolved.filter (fun ip => !(isIPv4 ip)) ++ resolved.filter (fun ip => isIPv4 ip)
  else if pref == "v4" then
    resolved.filter (fun ip => isIPv4 ip) ++ resolved.filter (fun ip => !(isIPv4 ip))
  else
    resolved

/-- Sequential dial loop over the candidate order: first success wins,
failures advance to the next candidate.  Returns the winning IP (if any)
and the log of dial attempts actually made. -/
def dialLoop (env : NetEnv) (base port : String) (pa : Int) :
    List IP → Option IP × List DialAttempt
  | [] => (none, [])
  | ip :: rest =>
      let network := netFor base ip
      let addr := joinHostPort ip.str port
      match env.dialErr network addr with
      | none => (some ip, [⟨network, addr, pa⟩])
      | some _ =>
          let r := dialLoop env base port pa rest
          (r.1, ⟨network, addr, pa⟩ :: r.2)

/-- Result record of `ResolveAndDial`: whether a connection was
established, the chosen IP, the resolved list, the chosen family string,
the returned error, plus (for verification) the dial attempts made and the
number of resolver calls. -/
structure RADResult where
  connOK : Bool
  chosenIP : Option IP
  resolved : List IP
  family : String
  err : Option String
  attempts : List DialAttempt
  lookups : Nat
deriving Repr

/-- Shallow embedding of `netutil.ResolveAndDial`.  An IP-literal host is
dialed directly on its own family with the caller's full timeout; a
hostname is resolved, the candidates ordered by `tryOrder`, and each
candidate dialed with the bounded per-attempt timeout; if every candidate
fails the error is Go's `context.DeadlineExceeded`. -/
def resolveAndDial (env : NetEnv) (pip : String → Option IP)
    (networkBase host port prefer : String) (timeout : Int) : RADResult :=
  match pip host with
  | some ip =>
      let network := netFor networkBase ip
      let addr := joinHostPort host port
      let e := env.dialErr network addr
      { connOK := e.isNone, chosenIP := some ip, resolved := [], family := famFor ip,
        err := e, attempts := [⟨network, addr, timeout⟩], lookups := 0 }
  | none =>
      match env.lookup with
      | .error e =>
          { connOK := false, chosenIP := none, resolved := [], family := "",
            err := some e, attempts := [], lookups := 1 }
      | .ok ips =>
          let order := tryOrder ips (asciiLower prefer)
          let pa := perAttemptNS timeout
          let r := dialLoop env networkBase port pa order
          match r.1 with
          | some ip =>
              { connOK := true, chosenIP := some ip, resolved := ips, family := famFor ip,
                err := none, attempts := r.2, lookups := 1 }
          | none =>
              { connOK := false, chosenIP := none, resolved := ips, family := "",
                err := some "context deadline exceeded", attempts := r.2, lookups := 1 }

/-! ## Shared tracer helpers (pkg/tracecommon/trace.go) -/

/-- `tracecommon.BuildTags`: assembles the `ip_family`, `remote_ip` and
`resolved_ips` tags. -/
def buildTags (chosenIP : Option IP) (resolved : List IP) (fam : String) :
    List (String × String) :=
  (if fam ≠ "" then [("ip_family", fam)] else []) ++
  (match chosenIP with
   | some ip => [("remote_ip", ip.str)]
   | none => []) ++
  (if resolved ≠ [] then [("resolved_ips", String.intercalate "," (resolved.map IP.str))] else [])

/-- Outcome of the one bounded `conn.Read` a TCP/UDP tracer performs after
sending data: the byte count returned and the read error (if any). -/
structure ConnEnv where
  readBytes : Nat
  readErr : Option String

/-- Dial phase shared by the TCP and UDP tracers: an IP-literal target is
dialed directly on its family-specific network with the caller's full
timeout (`joinAddr` preserves any zone); a hostname target goes through
`resolveAndDial` with the configured family preference. -/
structure DialPhase where
  chosenIP : Option IP
  resolved : List IP
  family : String
  err : Option String
  attempts : List DialAttempt
  lookups : Nat

/-- The literal-vs-hostname dial step of `tcp.TraceAddr` / `udp.TraceAddr`
(`base` is `"tcp"` or `"udp"`). -/
def dialPhase (env : NetEnv) (pip : String → Option IP) (base : String)
    (pr : ParseAddrResult) (ippref : String) (timeoutNS : Int) : DialPhase :=
  match pr.ip with
  | some ip =>
      let network := netFor base ip
      let e := env.dialErr network pr.joinAddr
      { chosenIP := some ip, resolved := [], family := famFor ip, err := e,
        attempts := [⟨network, pr.joinAddr, timeoutNS⟩], lookups := 0 }
  | none =>
      let r := resolveAndDial env pip base pr.host pr.port ippref timeoutNS
      { chosenIP := r.chosenIP, resolved := r.resolved, family := r.family, err := r.err,
        attempts := r.attempts, lookups := r.lookups }

/-- Result of a tracer entry point: the emitted event sequence, the
returned error, and (for verification) the dial attempts made and the
number of resolver calls. -/
structure TraceResult where
  events : List Event
  err : Option String
  attempts : List DialAttempt
  lookups : Nat

/-! ## TCP tracer (pkg/tcp, current version) -/

/-- Configuration of `tcp.TraceAddr` after the functional options ran:
defaults are a 30-second timeout, no dry-run, empty preference, no data. -/
structure TCPConfig where
  Dry : Bool
  TimeoutNS : Int
  IPPref : String
  hasData : Bool

/-- Shallow embedding of `tcp.TraceAddr`.  `tid`/`cid` stand for the
generated trace and connection UUIDs.  The event sequence follows the
source: `request_start`, then `dry_run` (dry mode), or `connect_start`,
the `resolve_error` branch (guarding a `ParseAddr` failure), the dial, a
`connect_error` error on dial failure, else `connect_done` with tags,
optional `data_send`/`data_recv`, and `request_end`. -/
def tcpTraceAddr (env : NetEnv) (cenv : ConnEnv)
    (shp : String → Option (String × String)) (pip : String → Option IP)
    (tid cid addr : String) (cfg : TCPConfig) : TraceResult :=
  let startEv := lifeEv "tcp" "request_start" tid
  if cfg.Dry then
    ⟨[startEv, lifeEv "tcp" "dry_run" tid], none, [], 0⟩
  else
    let csEv := lifeEv "tcp" "connect_start" tid
    let pr := ParseAddr shp pip addr "80"
    match pr.err with
    | some e => ⟨[startEv, csEv, errEv "tcp" "resolve_error" tid], some e, [], 0⟩
    | none =>
        let d := dialPhase env pip "tcp" pr cfg.IPPref cfg.TimeoutNS
        match d.err with
        | some e => ⟨[startEv, csEv, errEv "tcp" "connect_error" tid], some e, d.attempts, d.lookups⟩
        | none =>
            let tags := buildTags d.chosenIP d.resolved d.family
            let dataEvs :=
              if cfg.hasData then
                [lifeEvC "tcp" "data_send" tid cid 0 []] ++
                (if 0 < cenv.readBytes then [lifeEvC "tcp" "data_recv" tid cid 0 []] else [])
              else []
            ⟨[startEv, csEv, lifeEvC "tcp" "connect_done" tid cid 0 tags] ++ dataEvs ++
               [lifeEvC "tcp" "request_end" tid cid 0 []],
             none, d.attempts, d.lookups⟩

/-! ## UDP tracer (pkg/udp/main.go, current version) -/

/-- Configuration of `udp.TraceAddr` after the functional options ran:
defaults are a 5-second timeout, a 4096-byte receive buffer, no dry-run,
empty preference, no data. -/
structure UDPConfig where
  Dry : Bool
  TimeoutNS : Int
  RecvBuffer : Nat
  IPPref : String
  hasData : Bool

/-- Shallow embedding of `udp.TraceAddr`: `request_start`, then `dry_run`
(dry mode), or the `resolve_error` branch, the dial, a `dial_error` error
on failure, else `connected` with tags, optional `data_send`, `data_recv`
on a positive read and a non-fatal lifecycle `recv_error` on a read error,
then `request_end`. -/
def udpTraceAddr (env : NetEnv) (cenv : ConnEnv)
    (shp : String → Option (String × String)) (pip : String → Option IP)
    (tid cid addr : String) (cfg : UDPConfig) : TraceResult :=
  let startEv := lifeEv "udp" "request_start" tid
  if cfg.Dry then
    ⟨[startEv, lifeEv "udp" "dry_run" tid], none, [], 0⟩
  else
    let pr := ParseAddr shp pip addr "80"
    match pr.err with
    | some e => ⟨[startEv, errEv "udp" "resolve_error" tid], some e, [], 0⟩
    | none =>
        let d := dialPhase env pip "udp" pr cfg.IPPref cfg.TimeoutNS
        match d.err with
        | some e => ⟨[startEv, errEv "udp" "dial_error" tid], some e, d.attempts, d.lookups⟩
        | none =>
            let tags := buildTags d.chosenIP d.resolved d.family
            let dataEvs :=
              if cfg.hasData then
                [lifeEvC "udp" "data_send" tid cid 0 []] ++
                (if 0 < cenv.readBytes then [lifeEvC "udp" "data_recv" tid cid 0 []] else []) ++
                (match cenv.readErr with
                 | some _ => [lifeEvC "udp" "recv_error" tid cid 0 []]
                 | none => [])
              else []
            ⟨[startEv, lifeEvC "udp" "connected" tid cid 0 tags] ++ dataEvs ++
               [lifeEvC "udp" "request_end" tid cid 0 []],
             none, d.attempts, d.lookups⟩

/-! ## Stage correlator (pkg/http, `recordStageStart` / `emitStageDone`) -/

/-- The `stageStarts` map: stage key to recorded start instant.  Instants
are integers (nanoseconds); the mutex serializing access in Go disappears
in this sequential model. -/
abbrev StageMap := List (String × Int)

/-- Assoc-list lookup standing for the Go map read `stageStarts[key]`. -/
def lookupStage (m : StageMap) (key : String) : Option Int :=
  match m.find? (fun p => p.1 == key) with
  | some p => some p.2
  | none => none

/-- Deletion standing for `delete(stageStarts, key)`. -/
def eraseStage (m : StageMap) (key : String) : StageMap :=
  m.filter (fun p => !(p.1 == key))

/-- Shallow embedding of `recordStageStart`: record `now` under `key` only
if the key is absent; return the updated map and whether it newly
recorded. -/
def recordStageStart (m : StageMap) (key : String) (now : Int) : StageMap × Bool :=
  match lookupStage m key with
  | some _ => (m, false)
  | none => ((key, now) :: m, true)

/-- Shallow embedding of `emitStageDone`: look up and remove the key's
start time; the emitted event's duration is measured from it when present
and from the overall start `t0` otherwise. -/
def emitStageDone (m : StageMap) (key stage tid : String) (now t0 : Int) :
    StageMap × Event :=
  match lookupStage m key with
  | some s => (eraseStage m key, lifeEvD "http" stage tid (now - s))
  | none => (m, lifeEvD "http" stage tid (now - t0))

/-! ## HTTP header capture (pkg/http, transport helpers) -/

/-- Shallow embedding of `copyHeaders`: a fresh map with copied value
slices — contents identical to the input. -/
def copyHeaders (h : Headers) : Headers :=
  h.map (fun kv => (kv.1, kv.2.map id))

/-- Shallow embedding of `sanitizeHeaders`: for requests, replace the
values of case-insensitively matched `Authorization`/`Cookie` keys with
the fixed placeholder; for responses, the same for `Set-Cookie`; all other
entries are untouched. -/
def sanitizeHeaders (h : Headers) (req : Bool) : Headers :=
  h.map (fun kv =>
    let lk := asciiLower kv.1
    if req then
      if lk == "authorization" || lk == "cookie" then (kv.1, ["REDACTED"]) else kv
    else
      if lk == "set-cookie" then (kv.1, ["REDACTED"]) else kv)

/-- Request-header capture of `tracingTransport.RoundTrip`: copy the
outgoing headers, then sanitize the copy when redaction is on. -/
def captureReq (redact : Bool) (h : Headers) : Headers :=
  let c := copyHeaders h
  if redact then sanitizeHeaders c true else c

/-- Response-header capture of `tracingTransport.RoundTrip`. -/
def captureResp (redact : Bool) (h : Headers) : Headers :=
  let c := copyHeaders h
  if redact then sanitizeHeaders c false else c

/-- First value of a header key, or `""` when absent (`http.Header.Get`). -/
def getHeader (h : Headers) (k : String) : String :=
  match h.find? (fun p => p.1 == k) with
  | some p => p.2.headD ""
  | none => ""

/-- Replace a header key's values with a single value (`http.Header.Set`). -/
def setHeader (h : Headers) (k v : String) : Headers :=
  (k, [v]) :: h.filter (fun p => !(p.1 == k))

/-! ## HTTP tracer (pkg/http, `TraceURL` and `tracingTransport`) -/

/-- What the HTTP client stack does for one `client.Do` call, as seen by
the instrumentation: a (possibly empty) chain of redirected hops followed
by either a failing or a succeeding final round trip.  Each hop carries
the lifecycle stages its `httptrace.ClientTrace` callbacks emit (all of
those callbacks emit `event_type = "lifecycle"`), the hop's effective
outgoing headers, and the response data. -/
inductive DoOutcome where
  | fail (cb : List String) (reqH : Headers) (errText : String)
  | done (cb : List String) (reqH : Headers) (status : String) (respH : Headers)
  | redir (cb : List String) (reqH : Headers) (status : String) (respH : Headers)
      (toURL : String) (rest : DoOutcome)

/-- Environment of one `TraceURL` call: the outcome of request
construction (`http.NewRequestWithContext`) and the behavior of the
client stack. -/
structure HttpEnv where
  newRequestErr : Option String
  outcome : DoOutcome

/-- The `request_send` emission of `tracingTransport.RoundTrip`: inject
the `X-Trace-Id` header when configured and not already present, then
capture (and optionally redact) the outgoing headers. -/
def hopSend (redact inject : Bool) (tid : String) (reqH : Headers) : Event :=
  let r := if inject && getHeader reqH "X-Trace-Id" == "" then setHeader reqH "X-Trace-Id" tid
           else reqH
  lifeEvH "http" "request_send" tid (captureReq redact r)

/-- The `response_headers` emission of `tracingTransport.RoundTrip`. -/
def respEv (redact : Bool) (tid : String) (respH : Headers) : Event :=
  lifeEvH "http" "response_headers" tid (captureResp redact respH)

/-- Events and returned error of `client.Do` under the tracing transport:
per hop, the callback lifecycle events, `request_send`, then either the
`request_error` error event (failing round trip) or `response_headers`;
between hops, the `redirect` lifecycle event emitted by `CheckRedirect`. -/
def runDo (redact inject : Bool) (tid : String) : DoOutcome → List Event × Option String
  | .fail cb reqH e =>
      (cb.map (fun s => lifeEv "http" s tid) ++
         [hopSend redact inject tid reqH, errEv "http" "request_error" tid],
       some e)
  | .done cb reqH _status respH =>
      (cb.map (fun s => lifeEv "http" s tid) ++
         [hopSend redact inject tid reqH, respEv redact tid respH],
       none)
  | .redir cb reqH _status respH _toURL rest =>
      let r := runDo redact inject tid rest
      (cb.map (fun s => lifeEv "http" s tid) ++
         [hopSend redact inject tid reqH, respEv redact tid respH,
          lifeEv "http" "redirect" tid] ++ r.1,
       r.2)

/-- Configuration of `http.TraceURL` after the functional options ran:
defaults are a 30-second timeout, redaction on, no trace-header
injection, GET method. -/
structure HttpConfig where
  Dry : Bool
  TimeoutNS : Int
  Redact : Bool
  InjectTraceHeader : Bool
  Method : String

/-- Shallow embedding of `http.TraceURL`: `request_start`, then `dry_run`
(dry mode), or the `request_new` error (request construction failed), or
the `client.Do` run followed by the `request_do` error event on failure or
the `response_end` lifecycle event on success. -/
def traceURL (env : HttpEnv) (tid _url : String) (cfg : HttpConfig) :
    List Event × Option String :=
  let startEv := lifeEv "http" "request_start" tid
  if cfg.Dry then
    ([startEv, lifeEv "http" "dry_run" tid], none)
  else
    match env.newRequestErr with
    | some e => ([startEv, errEv "http" "request_new" tid], some e)
    | none =>
        let r := runDo cfg.Redact cfg.InjectTraceHeader tid env.outcome
        match r.2 with
        | some e => (startEv :: r.1 ++ [errEv "http" "request_do" tid], some e)
        | none => (startEv :: r.1 ++ [lifeEv "http" "response_end" tid], none)

/-! ## Independent redaction toggles (modelled from the spec) -/

/-- Modelled from the spec: the current `pkg/http` configuration with
independent request/response redaction toggles is not among the provided
sources — only its caller (`dispatchTrace` in `internal/console`, which
passes `WithRedact`, `WithRedactRequests` and `WithRedactResponses`
options) is.  Per spec §4.3/§6 and docs/REDACTION.md, redaction is
"independently togglable for requests and responses" and both toggles
default to on. -/
structure SpecRedactConfig where
  redactRequests : Bool
  redactResponses : Bool
deriving DecidableEq, Repr

/-- Modelled from the spec: documented defaults, redaction on for both
sides. -/
def specDefaultRedact : SpecRedactConfig := ⟨true, true⟩

/-- Modelled from the spec: the functional option toggling request-header
redaction only. -/
def specWithRedactRequests (b : Bool) (c : SpecRedactConfig) : SpecRedactConfig :=
  ⟨b, c.redactResponses⟩

/-- Modelled from the spec: the functional option toggling response-header
redaction only. -/
def specWithRedactResponses (b : Bool) (c : SpecRedactConfig) : SpecRedactConfig :=
  ⟨c.redactRequests, b⟩

/-- Functional-option application: each option mutates the default
configuration in order. -/
def specApplyOptions (opts : List (SpecRedactConfig → SpecRedactConfig))
    (c : SpecRedactConfig) : SpecRedactConfig :=
  opts.foldl (fun acc o => o acc) c

/-- Modelled from the spec: request-header capture honoring the
request-side toggle (the capture pipeline itself — copy, then sanitize —
is the one from `tracingTransport.RoundTrip`). -/
def specCaptureReq (c : SpecRedactConfig) (h : Headers) : Headers :=
  captureReq c.redactRequests h

/-- Modelled from the spec: response-header capture honoring the
response-side toggle. -/
def specCaptureResp (c : SpecRedactConfig) (h : Headers) : Headers :=
  captureResp c.redactResponses h

/-! ## Concrete instances used by witnesses and counterexamples -/

/-- A sample IPv4 address. -/
def wIP4 : IP := ⟨Family.v4, "1.2.3.4"⟩

/-- A sample IPv6 address. -/
def wIP6 : IP := ⟨Family.v6, "2001:db8::1"⟩

/-- A `net.ParseIP` behavior that recognizes no literal (hostname inputs). -/
def pipNone : String → Option IP := fun _ => none

/-- A `net.ParseIP` behavior recognizing the literal `127.0.0.1`. -/
def pip127 : String → Option IP :=
  fun s => if s = "127.0.0.1" then some ⟨Family.v4, "127.0.0.1"⟩ else none

/-- A `net.SplitHostPort` behavior that always fails to split. -/
def shpNone : String → Option (String × String) := fun _ => none

/-- Environment in which resolution yields one address of each family and
every dial attempt fails. -/
def envAllFail : NetEnv := ⟨.ok [wIP4, wIP6], fun _ _ => some "connection refused"⟩

/-- Environment in which resolution yields one IPv4 address and every dial
attempt succeeds. -/
def envDialOK : NetEnv := ⟨.ok [wIP4], fun _ _ => none⟩

/-- Read outcome: nothing received, no read error. -/
def cenv0 : ConnEnv := ⟨0, none⟩

/-- A `net.SplitHostPort` behavior splitting the one address the C4
witness traces. -/
def wShp : String → Option (String × String) :=
  fun s => if s = "127.0.0.1:8080" then some ("127.0.0.1", "8080") else none

/-- Non-dry TCP configuration with all defaults. -/
def tcpCfgRun : TCPConfig := ⟨false, 30000000000, "", false⟩

/-- Dry-run TCP configuration. -/
def tcpCfgDry : TCPConfig := ⟨true, 30000000000, "", false⟩

/-- Non-dry UDP configuration with all defaults. -/
def udpCfgRun : UDPConfig := ⟨false, 5000000000, 4096, "", false⟩

/-- Dry-run UDP configuration. -/
def udpCfgDry : UDPConfig := ⟨true, 5000000000, 4096, "", false⟩

/-- Non-dry HTTP configuration with all defaults. -/
def httpCfgRun : HttpConfig := ⟨false, 30000000000, true, false, ""⟩

/-- Dry-run HTTP configuration. -/
def httpCfgDry : HttpConfig := ⟨true, 30000000000, true, false, ""⟩

/-- HTTP environment: request construction succeeds and the single round
trip succeeds with a `200 OK` response. -/
def henvOK : HttpEnv := ⟨none, .done [] [] "200 OK" []⟩

/-- HTTP environment: request construction succeeds and the single round
trip fails. -/
def henvRTFail : HttpEnv := ⟨none, .fail [] [] "dial tcp: connection refused"⟩

/-- HTTP environment: request construction fails (malformed URL). -/
def henvBadURL : HttpEnv := ⟨some "parse error", .done [] [] "" []⟩

/-! ## Helper lemmas -/

@[simp] theorem isError_lifeEv (p s t : String) : (lifeEv p s t).isError = false := rfl

@[simp] theorem isError_lifeEvC (p s t c : String) (d : Int) (tg : List (String × String)) :
    (lifeEvC p s t c d tg).isError = false := rfl

@[simp] theorem isError_lifeEvH (p s t : String) (h : Headers) :
    (lifeEvH p s t h).isError = false := rfl

@[simp] theorem isError_lifeEvD (p s t : String) (d : Int) :
    (lifeEvD p s t d).isError = false := rfl

@[simp] theorem isError_errEv (p s t : String) : (errEv p s t).isError = true := rfl

@[simp] theorem isError_hopSend (r i : Bool) (t : String) (h : Headers) :
    (hopSend r i t h).isError = false := rfl

@[simp] theorem isError_respEv (r : Bool) (t : String) (h : Headers) :
    (respEv r t h).isError = false := rfl

@[simp] theorem isTerminal_lifeEv (p s t : String) :
    (lifeEv p s t).isTerminal = (s == "request_end") := rfl

@[simp] theorem isTerminal_lifeEvC (p s t c : String) (d : Int) (tg : List (String × String)) :
    (lifeEvC p s t c d tg).isTerminal = (s == "request_end") := rfl

@[simp] theorem isTerminal_errEv (p s t : String) : (errEv p s t).isTerminal = true := rfl

@[simp] theorem stage_lifeEv (p s t : String) : (lifeEv p s t).stage = s := rfl

@[simp] theorem stage_lifeEvC (p s t c : String) (d : Int) (tg : List (String × String)) :
    (lifeEvC p s t c d tg).stage = s := rfl

@[simp] theorem stage_errEv (p s t : String) : (errEv p s t).stage = s := rfl

@[simp] theorem errorCount_nil : errorCount [] = 0 := rfl

@[simp] theorem errorCount_cons (e : Event) (l : List Event) :
    errorCount (e :: l) = (if e.isError then 1 else 0) + errorCount l := rfl

@[simp] theorem errorCount_append (a b : List Event) :
    errorCount (a ++ b) = errorCount a + errorCount b := by
  induction a with
  | nil => simp
  | cons x xs ih => simp [ih, Nat.add_assoc]

@[simp] theorem terminalCount_nil : terminalCount [] = 0 := rfl

@[simp] theorem terminalCount_cons (e : Event) (l : List Event) :
    terminalCount (e :: l) = (if e.isTerminal then 1 else 0) + terminalCount l := rfl

@[simp] theorem terminalCount_append (a b : List Event) :
    terminalCount (a ++ b) = terminalCount a + terminalCount b := by
  induction a with
  | nil => simp
  | cons x xs ih => simp [ih, Nat.add_assoc]

/-- `copyHeaders` reproduces its input exactly. -/
theorem copyHeaders_self (h : Headers) : copyHeaders h = h := by
  simp [copyHeaders]

/-! ## Claim C6 — stage correlator idempotence -/

/-- C6: calling `recordStageStart` twice with the same key before
`emitStageDone` records the start time only once — the second call returns
`false` and leaves the stored map unchanged — and the single done event
emitted afterwards measures its duration from the first start instant. -/
theorem C6_record_start_idempotent (m : StageMap) (key stage tid : String)
    (t1 t2 t3 t0 : Int) (h : lookupStage m key = none) :
    (recordStageStart m key t1).2 = true ∧
    (recordStageStart (recordStageStart m key t1).1 key t2).2 = false ∧
    (recordStageStart (recordStageStart m key t1).1 key t2).1 = (recordStageStart m key t1).1 ∧
    (emitStageDone (recordStageStart m key t1).1 key stage tid t3 t0).2.durationNS = t3 - t1 := by
  have h1 : recordStageStart m key t1 = ((key, t1) :: m, true) := by
    simp [recordStageStart, h]
  have h2 : lookupStage ((key, t1) :: m) key = some t1 := by
    simp [lookupStage, List.find?_cons_of_pos]
  rw [h1]
  simp [recordStageStart, emitStageDone, h2, lifeEvD]

/-- Witness for C6 at a concrete correlator state. -/
theorem C6_record_start_idempotent_witness :
    (recordStageStart [] "connect:1.2.3.4:80" 10).2 = true ∧
    (recordStageStart (recordStageStart [] "connect:1.2.3.4:80" 10).1 "connect:1.2.3.4:80" 25).2 = false ∧
    (recordStageStart (recordStageStart [] "connect:1.2.3.4:80" 10).1 "connect:1.2.3.4:80" 25).1 =
      (recordStageStart [] "connect:1.2.3.4:80" 10).1 ∧
    (emitStageDone (recordStageStart [] "connect:1.2.3.4:80" 10).1 "connect:1.2.3.4:80"
        "connect_done" "t" 70 0).2.durationNS = 70 - 10 :=
  C6_record_start_idempotent [] "connect:1.2.3.4:80" "connect_done" "t" 10 25 70 0 rfl

/-! ## Claim C8 — header redaction on captured copies -/

/-- C8: with redaction enabled the captured header map replaces the value
of every case-insensitively matched `Authorization`/`Cookie` request
header (resp. `Set-Cookie` response header) with the fixed placeholder and
leaves every other entry equal to the original; the redaction operates on
a copy (`copyHeaders`) that reproduces the wire headers exactly; with
redaction disabled the captured map equals the wire headers unchanged; and
the transport's `request_send`/`response_headers` events carry exactly
these captured maps. -/
theorem C8_redaction_captures (h reqH respH : Headers) (b : Bool) (tid : String) :
    captureReq true h = h.map (fun kv =>
      if asciiLower kv.1 == "authorization" || asciiLower kv.1 == "cookie" then
        (kv.1, ["REDACTED"]) else kv) ∧
    captureResp true h = h.map (fun kv =>
      if asciiLower kv.1 == "set-cookie" then (kv.1, ["REDACTED"]) else kv) ∧
    captureReq false h = h ∧
    captureResp false h = h ∧
    copyHeaders h = h ∧
    (hopSend b false tid reqH).headers = captureReq b reqH ∧
    (respEv b tid respH).headers = captureResp b respH := by
  refine ⟨?_, ?_, ?_, ?_, copyHeaders_self h, rfl, rfl⟩ <;>
    simp [captureReq, captureResp, copyHeaders_self, sanitizeHeaders]

/-! ## Claim C3 — independent redaction toggles (modelled from the spec) -/

/-- C3: the HTTP tracer's configuration offers independently togglable
redaction for requests and for responses — both defaulting to on — and the
chosen settings are what the header-capture step applies: the request-side
toggle selects request sanitization, the response-side toggle response
sanitization, each without affecting the other. -/
theorem C3_independent_redaction_toggles (b1 b2 : Bool) (h : Headers) :
    specDefaultRedact.redactRequests = true ∧
    specDefaultRedact.redactResponses = true ∧
    specApplyOptions [specWithRedactRequests b1, specWithRedactResponses b2]
      specDefaultRedact = ⟨b1, b2⟩ ∧
    specCaptureReq ⟨b1, b2⟩ h = (if b1 then sanitizeHeaders h true else h) ∧
    specCaptureResp ⟨b1, b2⟩ h = (if b2 then sanitizeHeaders h false else h) := by
  refine ⟨rfl, rfl, rfl, ?_, ?_⟩ <;>
    simp [specCaptureReq, specCaptureResp, captureReq, captureResp, copyHeaders_self]

/-! ## Claim C10 — ParseAddr is total, resolve_error unreachable -/

/-- C10: `ParseAddr` returns a nil error for every input (every return
path of the source ends in `nil`), so the `resolve_error` branches of the
TCP and UDP tracers are unreachable: no TCP/UDP trace ever emits a
`resolve_error` event. -/
theorem C10_parse_addr_total (shp : String → Option (String × String))
    (pip : String → Option IP) (input dp : String) (env : NetEnv) (cenv : ConnEnv)
    (tid cid addr : String) (tcfg : TCPConfig) (ucfg : UDPConfig) :
    (ParseAddr shp pip input dp).err = none ∧
    "resolve_error" ∉ stages (tcpTraceAddr env cenv shp pip tid cid addr tcfg).events ∧
    "resolve_error" ∉ stages (udpTraceAddr env cenv shp pip tid cid addr ucfg).events := by
  refine ⟨rfl, ?_, ?_⟩
  · simp only [tcpTraceAddr]
    split
    · simp [stages]
    · split
      · next heq => simp [ParseAddr] at heq
      · split
        · simp [stages]
        · simp only [stages, List.map_append]
          simp only [List.mem_append, List.mem_cons]
          split <;> (try split) <;> simp
  · simp only [udpTraceAddr]
    split
    · simp [stages]
    · split
      · next heq => simp [ParseAddr] at heq
      · split
        · simp [stages]
        · simp only [stages, List.map_append]
          simp only [List.mem_append, List.mem_cons]
          split <;> (try split) <;> (try split) <;> simp

/-- When every dial attempt fails, the loop tries every candidate in order
and logs one attempt per candidate. -/
theorem dialLoop_all_fail (env : NetEnv) (base port : String) (pa : Int)
    (hfail : ∀ n a, env.dialErr n a ≠ none) (l : List IP) :
    dialLoop env base port pa l =
      (none, l.map (fun ip => ⟨netFor base ip, joinHostPort ip.str port, pa⟩)) := by
  induction l with
  | nil => rfl
  | cons x xs ih =>
      simp only [dialLoop]
      cases hx : env.dialErr (netFor base x) (joinHostPort x.str port) with
      | none => exact absurd hx (hfail _ _)
      | some e => simp [ih]

/-- Every attempt logged by the dial loop carries the per-attempt timeout
it was given. -/
theorem dialLoop_timeouts (env : NetEnv) (base port : String) (pa : Int) :
    ∀ l : List IP, ∀ a ∈ (dialLoop env base port pa l).2, a.timeoutNS = pa := by
  intro l
  induction l with
  | nil => intro a ha; simp [dialLoop] at ha
  | cons x xs ih =>
      intro a ha
      simp only [dialLoop] at ha
      split at ha
      · simp at ha; subst ha; rfl
      · rcases List.mem_cons.mp ha with h | h
        · subst h; rfl
        · exact ih a h

/-! ## Claim C4 — IP literals bypass preference and resolution -/

/-- C4: for a target whose host is an IP literal, the family preference
has no effect on `ResolveAndDial`: the result is identical for any two
preference values, the single dial attempt uses the network
`networkBase+"4"` for an IPv4 literal and `networkBase+"6"` otherwise with
the address built from the literal itself, and no resolver call and no
candidate-ordering logic runs. -/
theorem C4_literal_bypasses_preference (env : NetEnv) (pip : String → Option IP)
    (base host port pref pref' : String) (timeout : Int) (ip : IP)
    (pr : ParseAddrResult) (h : pip host = some ip) (hpr : pr.ip = some ip) :
    resolveAndDial env pip base host port pref timeout =
      resolveAndDial env pip base host port pref' timeout ∧
    (resolveAndDial env pip base host port pref timeout).attempts =
      [⟨base ++ (if isIPv4 ip then "4" else "6"), joinHostPort host port, timeout⟩] ∧
    (resolveAndDial env pip base host port pref timeout).lookups = 0 ∧
    (resolveAndDial env pip base host port pref timeout).family = famFor ip ∧
    dialPhase env pip base pr pref timeout = dialPhase env pip base pr pref' timeout ∧
    (dialPhase env pip base pr pref timeout).attempts =
      [⟨base ++ (if isIPv4 ip then "4" else "6"), pr.joinAddr, timeout⟩] ∧
    (dialPhase env pip base pr pref timeout).lookups = 0 := by
  refine ⟨?_, ?_, ?_, ?_, ?_, ?_, ?_⟩ <;>
    simp [resolveAndDial, dialPhase, h, hpr, netFor, apply_ite (fun s => base ++ s)]

/-- Witness for C4 at the literal `127.0.0.1` with opposing preferences. -/
theorem C4_literal_bypasses_preference_witness :
    pip127 "127.0.0.1" = some ⟨Family.v4, "127.0.0.1"⟩ ∧
    (ParseAddr wShp pip127 "127.0.0.1:8080" "80").ip = some ⟨Family.v4, "127.0.0.1"⟩ ∧
    (resolveAndDial envAllFail pip127 "tcp" "127.0.0.1" "8080" "v6" 1000 =
      resolveAndDial envAllFail pip127 "tcp" "127.0.0.1" "8080" "auto" 1000 ∧
    (resolveAndDial envAllFail pip127 "tcp" "127.0.0.1" "8080" "v6" 1000).attempts =
      [⟨"tcp" ++ (if isIPv4 ⟨Family.v4, "127.0.0.1"⟩ then "4" else "6"),
        joinHostPort "127.0.0.1" "8080", 1000⟩] ∧
    (resolveAndDial envAllFail pip127 "tcp" "127.0.0.1" "8080" "v6" 1000).lookups = 0 ∧
    (resolveAndDial envAllFail pip127 "tcp" "127.0.0.1" "8080" "v6" 1000).family =
      famFor ⟨Family.v4, "127.0.0.1"⟩ ∧
    dialPhase envAllFail pip127 "tcp" (ParseAddr wShp pip127 "127.0.0.1:8080" "80") "v6" 1000 =
      dialPhase envAllFail pip127 "tcp" (ParseAddr wShp pip127 "127.0.0.1:8080" "80") "auto" 1000 ∧
    (dialPhase envAllFail pip127 "tcp" (ParseAddr wShp pip127 "127.0.0.1:8080" "80") "v6" 1000).attempts =
      [⟨"tcp" ++ (if isIPv4 ⟨Family.v4, "127.0.0.1"⟩ then "4" else "6"),
        (ParseAddr wShp pip127 "127.0.0.1:8080" "80").joinAddr, 1000⟩] ∧
    (dialPhase envAllFail pip127 "tcp" (ParseAddr wShp pip127 "127.0.0.1:8080" "80") "v6" 1000).lookups = 0) :=
  ⟨rfl, by decide,
    C4_literal_bypasses_preference envAllFail pip127 "tcp" "127.0.0.1" "8080"
      "v6" "auto" 1000 ⟨Family.v4, "127.0.0.1"⟩
      (ParseAddr wShp pip127 "127.0.0.1:8080" "80") rfl (by decide)⟩

/-! ## Claim C5 — hostname candidate try order -/

/-- C5: for hostname targets the candidate try order is a function of the
resolved list and the preference — `v6` puts all IPv6 candidates (in
resolver order) before all IPv4 ones, `v4` the reverse, and `auto` or the
empty preference keeps exactly the resolver's returned order — and the
dial attempts of `ResolveAndDial` follow that order (shown here with every
dial failing, so every candidate is tried). -/
theorem C5_candidate_try_order (env : NetEnv) (pip : String → Option IP)
    (base host port pref : String) (timeout : Int) (ips : List IP)
    (h1 : pip host = none) (h2 : env.lookup = .ok ips)
    (h3 : ∀ n a, env.dialErr n a ≠ none) :
    (resolveAndDial env pip base host port pref timeout).attempts =
      (tryOrder ips (asciiLower pref)).map
        (fun ip => ⟨netFor base ip, joinHostPort ip.str port, perAttemptNS timeout⟩) ∧
    tryOrder ips "v6" =
      ips.filter (fun ip => !(isIPv4 ip)) ++ ips.filter (fun ip => isIPv4 ip) ∧
    tryOrder ips "v4" =
      ips.filter (fun ip => isIPv4 ip) ++ ips.filter (fun ip => !(isIPv4 ip)) ∧
    tryOrder ips "auto" = ips ∧
    tryOrder ips "" = ips := by
  refine ⟨?_, rfl, rfl, rfl, rfl⟩
  have hd := dialLoop_all_fail env base port (perAttemptNS timeout) h3
    (tryOrder ips (asciiLower pref))
  simp [resolveAndDial, h1, h2, hd]

/-- Witness for C5: a mixed resolver answer with preference `v6` and every
dial failing. -/
theorem C5_candidate_try_order_witness :
    pipNone "example.com" = none ∧ envAllFail.lookup = .ok [wIP4, wIP6] ∧
    ((resolveAndDial envAllFail pipNone "tcp" "example.com" "80" "v6" 0).attempts =
      (tryOrder [wIP4, wIP6] (asciiLower "v6")).map
        (fun ip => ⟨netFor "tcp" ip, joinHostPort ip.str "80", perAttemptNS 0⟩) ∧
    tryOrder [wIP4, wIP6] "v6" =
      [wIP4, wIP6].filter (fun ip => !(isIPv4 ip)) ++ [wIP4, wIP6].filter (fun ip => isIPv4 ip) ∧
    tryOrder [wIP4, wIP6] "v4" =
      [wIP4, wIP6].filter (fun ip => isIPv4 ip) ++ [wIP4, wIP6].filter (fun ip => !(isIPv4 ip)) ∧
    tryOrder [wIP4, wIP6] "auto" = [wIP4, wIP6] ∧
    tryOrder [wIP4, wIP6] "" = [wIP4, wIP6]) :=
  ⟨rfl, rfl, C5_candidate_try_order envAllFail pipNone "tcp" "example.com" "80" "v6" 0
    [wIP4, wIP6] rfl rfl (fun _ _ h => by simp [envAllFail] at h)⟩

/-! ## Claim C9 — per-attempt timeout bound -/

/-- C9 counterexample: with a caller timeout of `0` the code applies the
5-second ceiling to each attempt, whereas the claim's bound — the smaller
of the caller's overall timeout and the 5-second ceiling, "including when
the caller's overall timeout is zero or negative" — would be `0`. -/
theorem C9_counterexample :
    (resolveAndDial envAllFail pipNone "tcp" "example.com" "80" "" 0).attempts.map
      DialAttempt.timeoutNS = [5000000000, 5000000000] ∧
    min (0 : Int) 5000000000 ≠ 5000000000 := by
  refine ⟨rfl, ?_⟩
  have h0 : min (0 : Int) 5000000000 = 0 := min_eq_left (by norm_num)
  rw [h0]
  decide

/-- C9 (amended): every dial attempt of a hostname target is bounded by
the per-attempt timeout, which equals the smaller of the caller's overall
timeout and the 5-second ceiling when the overall timeout is positive, and
equals the 5-second ceiling when the overall timeout is zero or
negative. -/
theorem C9_per_attempt_timeout (env : NetEnv) (pip : String → Option IP)
    (base host port pref : String) (timeout : Int)
    (h : pip host = none) :
    (∀ a ∈ (resolveAndDial env pip base host port pref timeout).attempts,
        a.timeoutNS = perAttemptNS timeout) ∧
    (0 < timeout → perAttemptNS timeout = min timeout fiveSecondsNS) ∧
    (timeout ≤ 0 → perAttemptNS timeout = fiveSecondsNS) := by
  refine ⟨?_, ?_, ?_⟩
  · intro a ha
    simp only [resolveAndDial, h] at ha
    cases hl : env.lookup with
    | error e => rw [hl] at ha; simp at ha
    | ok ips =>
        rw [hl] at ha
        simp only [] at ha
        split at ha <;> simp only [] at ha <;>
          exact dialLoop_timeouts env base port (perAttemptNS timeout) _ a ha
  · intro ht
    simp only [perAttemptNS, fiveSecondsNS]
    split
    · next hc => exact (min_eq_left hc.2.le).symm
    · next hc =>
        have : (5000000000 : Int) ≤ timeout := by omega
        exact (min_eq_right this).symm
  · intro ht
    simp only [perAttemptNS]
    split
    · next hc => omega
    · rfl

/-- Witness for C9 (amended) at a 7-second caller timeout. -/
theorem C9_per_attempt_timeout_witness :
    pipNone "example.com" = none ∧
    ((∀ a ∈ (resolveAndDial envAllFail pipNone "tcp" "example.com" "80" "" 7000000000).attempts,
        a.timeoutNS = perAttemptNS 7000000000) ∧
    (0 < (7000000000 : Int) → perAttemptNS 7000000000 = min 7000000000 fiveSecondsNS) ∧
    ((7000000000 : Int) ≤ 0 → perAttemptNS 7000000000 = fiveSecondsNS)) :=
  ⟨rfl, C9_per_attempt_timeout envAllFail pipNone "tcp" "example.com" "80" "" 7000000000 rfl⟩

/-- Callback events are lifecycle events: they never contribute to the
error count. -/
theorem errorCount_cbEvents (cb : List String) (t : String) :
    errorCount (cb.map (fun s => lifeEv "http" s t)) = 0 := by
  induction cb with
  | nil => rfl
  | cons x xs ih => simp [ih]

/-- The `client.Do` run contributes exactly one error event when (and only
when) its round trip fails. -/
theorem runDo_errorCount (r i : Bool) (t : String) (o : DoOutcome) :
    errorCount (runDo r i t o).1 = (if (runDo r i t o).2.isSome then 1 else 0) := by
  induction o with
  | fail cb reqH e => simp [runDo, errorCount_cbEvents]
  | done cb reqH st respH => simp [runDo, errorCount_cbEvents]
  | redir cb reqH st respH toURL rest ih => simp [runDo, errorCount_cbEvents, ih]

/-! ## Claim C1 — terminal guarantee -/

/-- C1 counterexample: a successful HTTP trace returns nil yet its emitted
sequence contains zero events from {`request_end`, error event} — its last
event is `response_end` — so the claimed "exactly one of
{request_end, terminal error} as its last event, never zero" fails. -/
theorem C1_counterexample :
    (traceURL henvOK "t" "http://example.com/" httpCfgRun).2 = none ∧
    terminalCount (traceURL henvOK "t" "http://example.com/" httpCfgRun).1 = 0 ∧
    (traceURL henvOK "t" "http://example.com/" httpCfgRun).1 ≠ [] := by
  decide

/-- C1 (amended): on every non-dry-run input, a TCP or UDP `TraceAddr`
emits exactly one terminal event (`request_end` or an error event) and it
is the last event of the sequence; an HTTP `TraceURL` ends with the
`response_end` lifecycle event and no error events on success, and on a
fatal error ends with an error event — one error event (`request_new`)
when request construction fails, two (`request_error` then `request_do`)
when a round trip fails. -/
theorem C1_terminal_guarantee (env : NetEnv) (cenv : ConnEnv)
    (shp : String → Option (String × String)) (pip : String → Option IP)
    (tid cid addr url : String) (tcfg : TCPConfig) (ucfg : UDPConfig)
    (henv : HttpEnv) (hcfg : HttpConfig)
    (ht : tcfg.Dry = false) (hu : ucfg.Dry = false) (hh : hcfg.Dry = false) :
    (terminalCount (tcpTraceAddr env cenv shp pip tid cid addr tcfg).events = 1 ∧
      ∃ e, (tcpTraceAddr env cenv shp pip tid cid addr tcfg).events.getLast? = some e ∧
        e.isTerminal = true) ∧
    (terminalCount (udpTraceAddr env cenv shp pip tid cid addr ucfg).events = 1 ∧
      ∃ e, (udpTraceAddr env cenv shp pip tid cid addr ucfg).events.getLast? = some e ∧
        e.isTerminal = true) ∧
    ((traceURL henv tid url hcfg).2 = none →
      (traceURL henv tid url hcfg).1.getLast? = some (lifeEv "http" "response_end" tid) ∧
      errorCount (traceURL henv tid url hcfg).1 = 0) ∧
    ((traceURL henv tid url hcfg).2 ≠ none →
      (traceURL henv tid url hcfg).1.getLast? =
        some (errEv "http" (if henv.newRequestErr.isSome then "request_new" else "request_do") tid) ∧
      errorCount (traceURL henv tid url hcfg).1 =
        (if henv.newRequestErr.isSome then 1 else 2)) := by
  refine ⟨?_, ?_, ?_⟩
  · -- TCP part
    simp only [tcpTraceAddr, ht, Bool.false_eq_true, if_false]
    split
    · next heq => simp [ParseAddr] at heq
    · split
      · exact ⟨by simp, errEv "tcp" "connect_error" tid, rfl, rfl⟩
      · constructor
        · simp only [terminalCount_append]
          split <;> (try split) <;> simp
        · exact ⟨lifeEvC "tcp" "request_end" tid cid 0 [], List.getLast?_concat _, rfl⟩
  · -- UDP part
    simp only [udpTraceAddr, hu, Bool.false_eq_true, if_false]
    split
    · next heq => simp [ParseAddr] at heq
    · split
      · exact ⟨by simp, errEv "udp" "dial_error" tid, rfl, rfl⟩
      · constructor
        · simp only [terminalCount_append]
          split <;> (try split) <;> (try split) <;> simp
        · exact ⟨lifeEvC "udp" "request_end" tid cid 0 [], List.getLast?_concat _, rfl⟩
  · -- HTTP part
    have hrc := runDo_errorCount hcfg.Redact hcfg.InjectTraceHeader tid henv.outcome
    simp only [traceURL, hh, Bool.false_eq_true, if_false]
    cases hn : henv.newRequestErr with
    | some e =>
        refine ⟨fun hco => by simp at hco, fun _ => ⟨?_, ?_⟩⟩ <;> simp
    | none =>
        cases hr : (runDo hcfg.Redact hcfg.InjectTraceHeader tid henv.outcome).2 with
        | some e =>
            rw [hr] at hrc
            refine ⟨fun hco => by simp [hr] at hco, fun _ => ⟨?_, ?_⟩⟩
            · simp only [hr]
              exact List.getLast?_concat _
            · simp only [hr, List.cons_append, errorCount_cons, errorCount_append,
                isError_lifeEv, if_false]
              simp [hrc]
        | none =>
            rw [hr] at hrc
            refine ⟨fun _ => ⟨?_, ?_⟩, fun hco => by simp [hr] at hco⟩
            · simp only [hr]
              exact List.getLast?_concat _
            · simp only [hr, List.cons_append, errorCount_cons, errorCount_append,
                isError_lifeEv, if_false]
              simp [hrc]

/-- Witness for C1 (amended): a failing TCP/UDP dial and a successful
HTTP round trip. -/
theorem C1_terminal_guarantee_witness :
    tcpCfgRun.Dry = false ∧ udpCfgRun.Dry = false ∧ httpCfgRun.Dry = false ∧
    ((terminalCount (tcpTraceAddr envAllFail cenv0 shpNone pipNone "t" "c" "example.com:80" tcpCfgRun).events = 1 ∧
      ∃ e, (tcpTraceAddr envAllFail cenv0 shpNone pipNone "t" "c" "example.com:80" tcpCfgRun).events.getLast? = some e ∧
        e.isTerminal = true) ∧
    (terminalCount (udpTraceAddr envAllFail cenv0 shpNone pipNone "t" "c" "example.com:80" udpCfgRun).events = 1 ∧
      ∃ e, (udpTraceAddr envAllFail cenv0 shpNone pipNone "t" "c" "example.com:80" udpCfgRun).events.getLast? = some e ∧
        e.isTerminal = true) ∧
    ((traceURL henvOK "t" "http://example.com/" httpCfgRun).2 = none →
      (traceURL henvOK "t" "http://example.com/" httpCfgRun).1.getLast? =
        some (lifeEv "http" "response_end" "t") ∧
      errorCount (traceURL henvOK "t" "http://example.com/" httpCfgRun).1 = 0) ∧
    ((traceURL henvOK "t" "http://example.com/" httpCfgRun).2 ≠ none →
      (traceURL henvOK "t" "http://example.com/" httpCfgRun).1.getLast? =
        some (errEv "http" (if henvOK.newRequestErr.isSome then "request_new" else "request_do") "t") ∧
      errorCount (traceURL henvOK "t" "http://example.com/" httpCfgRun).1 =
        (if henvOK.newRequestErr.isSome then 1 else 2))) :=
  ⟨rfl, rfl, rfl,
    C1_terminal_guarantee envAllFail cenv0 shpNone pipNone "t" "c" "example.com:80"
      "http://example.com/" tcpCfgRun udpCfgRun henvOK httpCfgRun rfl rfl rfl⟩

/-! ## Claim C2 — error events per fatal error -/

/-- C2: evaluation of the code at the failing input.  A non-dry HTTP trace
whose single round trip fails returns a non-nil error but emits two
`event_type = "error"` events before returning, not exactly one: the
transport wrapper's `request_error` and the top-level call's `request_do`,
both reporting the same failure. -/
theorem C2_double_error_at_failing_input :
    (traceURL henvRTFail "t" "http://example.com/" httpCfgRun).2 ≠ none ∧
    errorCount (traceURL henvRTFail "t" "http://example.com/" httpCfgRun).1 = 2 ∧
    stages (traceURL henvRTFail "t" "http://example.com/" httpCfgRun).1 =
      ["request_start", "request_send", "request_error", "request_do"] := by
  decide

/-! ## Claim C7 — dry-run behavior -/

/-- C7: every dry-run invocation emits exactly `[request_start, dry_run]`,
returns nil, performs no dial attempt and no resolver call, and its result
does not depend on the network environment at all (the equalities below
hold for every environment, with an environment-independent right-hand
side). -/
theorem C7_dry_run (env : NetEnv) (cenv : ConnEnv)
    (shp : String → Option (String × String)) (pip : String → Option IP)
    (tid cid addr url : String) (tcfg : TCPConfig) (ucfg : UDPConfig)
    (henv : HttpEnv) (hcfg : HttpConfig)
    (ht : tcfg.Dry = true) (hu : ucfg.Dry = true) (hh : hcfg.Dry = true) :
    tcpTraceAddr env cenv shp pip tid cid addr tcfg =
      ⟨[lifeEv "tcp" "request_start" tid, lifeEv "tcp" "dry_run" tid], none, [], 0⟩ ∧
    udpTraceAddr env cenv shp pip tid cid addr ucfg =
      ⟨[lifeEv "udp" "request_start" tid, lifeEv "udp" "dry_run" tid], none, [], 0⟩ ∧
    traceURL henv tid url hcfg =
      ([lifeEv "http" "request_start" tid, lifeEv "http" "dry_run" tid], none) := by
  refine ⟨?_, ?_, ?_⟩ <;> simp [tcpTraceAddr, udpTraceAddr, traceURL, ht, hu, hh]

/-- Witness for C7 at concrete dry-run configurations. -/
theorem C7_dry_run_witness :
    tcpCfgDry.Dry = true ∧ udpCfgDry.Dry = true ∧ httpCfgDry.Dry = true ∧
    (tcpTraceAddr envAllFail cenv0 shpNone pipNone "t" "c" "example.com:80" tcpCfgDry =
      ⟨[lifeEv "tcp" "request_start" "t", lifeEv "tcp" "dry_run" "t"], none, [], 0⟩ ∧
    udpTraceAddr envAllFail cenv0 shpNone pipNone "t" "c" "example.com:80" udpCfgDry =
      ⟨[lifeEv "udp" "request_start" "t", lifeEv "udp" "dry_run" "t"], none, [], 0⟩ ∧
    traceURL henvRTFail "t" "http://example.com/" httpCfgDry =
      ([lifeEv "http" "request_start" "t", lifeEv "http" "dry_run" "t"], none)) :=
  ⟨rfl, rfl, rfl,
    C7_dry_run envAllFail cenv0 shpNone pipNone "t" "c" "example.com:80"
      "http://example.com/" tcpCfgDry udpCfgDry henvRTFail httpCfgDry rfl rfl rfl⟩

end Tracer
